import Mathlib

/-!
Verification of the feature-resolution and prediction pipeline of
`backend/ai_scripts/ml_price_predictor.py`.

The pipeline is embedded shallowly: pandas DataFrames become association
lists of named columns, numeric cells become rationals, and every Python
operation that can raise is modelled with `Option` (a `none` stands for an
exception caught by the enclosing `try`).  Cells whose `float()` cast
raises (non-numeric strings, objects) are modelled by `Value.other`.
-/

namespace MLPredict

/-- Python `str.strip()` whitespace class (ASCII part). -/
def isPyWS (c : Char) : Bool :=
  c == ' ' || c == '\t' || c == '\n' || c == '\r' || c == '\x0b' || c == '\x0c'

/-- Python `str.strip()`. -/
def pyStrip (s : String) : String :=
  String.mk (((s.toList.dropWhile isPyWS).reverse.dropWhile isPyWS).reverse)

def lowerChar (c : Char) : Char :=
  if 'A' ≤ c ∧ c ≤ 'Z' then Char.ofNat (c.toNat + 32) else c

/-- Python `str.lower()` (ASCII part; no column or feature name in this
development uses non-ASCII letters). -/
def pyLower (s : String) : String := String.mk (s.toList.map lowerChar)

/-- Worker for `pySplit`, fuelled so that it is structurally recursive. -/
def splitAux (sep : List Char) : ℕ → List Char → List Char → List (List Char)
  | 0, cur, rest => [cur.reverse ++ rest]
  | fuel+1, cur, cs =>
    if sep.isPrefixOf cs then
      cur.reverse :: splitAux sep fuel [] (cs.drop sep.length)
    else
      match cs with
      | [] => [cur.reverse]
      | c :: rest => splitAux sep fuel (c :: cur) rest

/-- Python `s.split(sep)` for a non-empty separator: the pieces of `s`
between non-overlapping occurrences of `sep`, leftmost first, with empty
pieces kept (`"ab_lag".split("_lag") == ["ab", ""]`). -/
def pySplit (s : String) (sep : String) : List String :=
  (splitAux sep.toList (s.toList.length + 1) [] s.toList).map String.mk

/-- A cell of the input data.  `num q` is a numeric value; `other` stands
for any value whose `float()` cast raises.  (The NaN fill pandas inserts
for a key missing from some records is also mapped to `other`; no theorem
below depends on a history with heterogeneous record keys.) -/
inductive Value where
  | num (q : ℚ)
  | other
deriving DecidableEq

/-- `float()` on a cell: numeric cells convert, anything else raises. -/
def toFloatQ : Value → Option ℚ
  | .num q => some q
  | .other => none

/-- One history record: a JSON object, i.e. a list of key/value pairs. -/
def Record := List (String × Value)

/-- `dict`-style lookup: first pair with the given key. -/
def lookupKV {α : Type} (l : List (String × α)) (k : String) : Option α :=
  (l.find? (fun p => p.1 == k)).map Prod.snd

/-- A DataFrame: named columns in order, plus the row count
(`len(df)`).  Column access takes the first column with a matching
label, which agrees with pandas whenever labels are not duplicated. -/
structure DF where
  cols : List (String × List Value)
  nrows : ℕ

def DF.columns (df : DF) : List String := df.cols.map Prod.fst

def DF.getCol (df : DF) (c : String) : Option (List Value) :=
  (df.cols.find? (fun p => p.1 == c)).map Prod.snd

/-- `df.iloc[-1][c]` / `latest[c]`: the last value of a column. -/
def DF.lastOf (df : DF) (c : String) : Option Value :=
  (df.getCol c).bind List.getLast?

/-- `df[c] = vals`: replace the column in place, or append it. -/
def DF.setCol (df : DF) (name : String) (vals : List Value) : DF :=
  if df.columns.contains name then
    ⟨df.cols.map (fun p => if p.1 == name then (name, vals) else p), df.nrows⟩
  else
    ⟨df.cols ++ [(name, vals)], df.nrows⟩

/-- Keys of a list of records in order of first appearance, as
`pd.DataFrame(list_of_dicts)` orders its columns. -/
def collectKeys (history : List Record) : List String :=
  history.foldl
    (fun acc r => r.foldl
      (fun acc2 kv => if acc2.contains kv.1 then acc2 else acc2 ++ [kv.1]) acc)
    []

/-- `pd.DataFrame(history)` followed by the OHLCV completion of
lines 66–79: when a `price` column is present, copy it to `Close` and
fill `Open`/`High`/`Low` from `Close` and `Volume` with zeros unless the
corresponding lowercase key is already a column. -/
def buildDF (history : List Record) : DF :=
  let keys := collectKeys history
  let base : DF :=
    ⟨keys.map (fun k => (k, history.map (fun r => (lookupKV r k).getD .other))),
     history.length⟩
  if base.columns.contains "price" then
    let d1 := base.setCol "Close" ((base.getCol "price").getD [])
    let d2 := if d1.columns.contains "open" then d1
              else d1.setCol "Open" ((d1.getCol "Close").getD [])
    let d3 := if d2.columns.contains "high" then d2
              else d2.setCol "High" ((d2.getCol "Close").getD [])
    let d4 := if d3.columns.contains "low" then d3
              else d3.setCol "Low" ((d3.getCol "Close").getD [])
    let d5 := if d4.columns.contains "volume" then d4
              else d4.setCol "Volume" (List.replicate history.length (.num 0))
    d5
  else base

/-- Line 84: `df.columns = df.columns.str.strip()`. -/
def stripCols (df : DF) : DF :=
  ⟨df.cols.map (fun p => (pyStrip p.1, p.2)), df.nrows⟩

/-- Python `int(s)`: surrounding whitespace, an optional sign, then
decimal digits.  (Python's underscore digit grouping is not modelled; no
feature name in this development uses it.) -/
def digitsToNat (cs : List Char) : Option ℕ :=
  if cs.isEmpty then none
  else if cs.all Char.isDigit then
    some (cs.foldl (fun a c => a * 10 + (c.toNat - 48)) 0)
  else none

def parsePyInt (s : String) : Option Int :=
  match (pyStrip s).toList with
  | '+' :: rest => (digitsToNat rest).map Int.ofNat
  | '-' :: rest => (digitsToNat rest).map (fun n => -(n : Int))
  | cs => (digitsToNat cs).map Int.ofNat

/-- Python negative-index access `vals.iloc[i]`; out of range raises. -/
def pyIloc (vals : List Value) (i : Int) : Option Value :=
  if 0 ≤ i then vals.get? i.toNat
  else if 0 ≤ (vals.length : Int) + i then vals.get? ((vals.length : Int) + i).toNat
  else none

/-- The match loop of lines 108–112 / 138–142: first column equal to the
target under `col.strip().lower()` comparison (the target is lowered but
not stripped, exactly as in the source). -/
def findColMatch (cols : List String) (target : String) : Option String :=
  cols.find? (fun c => pyLower (pyStrip c) == pyLower target)

/-- Alias table of the lag branch, lines 116–125. -/
def lagAlias (cols : List String) (baseCol : String) : Option String :=
  let b := pyLower baseCol
  if b == "close" || b == "close/last" then
    some (if "Close" ∈ cols then "Close" else "price")
  else if b == "open" then (if "Open" ∈ cols then some "Open" else none)
  else if b == "high" then (if "High" ∈ cols then some "High" else none)
  else if b == "low" then (if "Low" ∈ cols then some "Low" else none)
  else if b == "volume" then (if "Volume" ∈ cols then some "Volume" else none)
  else none

/-- Alias table of the current-value branch, lines 146–155. -/
def currentAlias (cols : List String) (nm : String) : Option String :=
  let b := pyLower nm
  if b == "open" then some (if "Open" ∈ cols then "Open" else "price")
  else if b == "high" then some (if "High" ∈ cols then "High" else "price")
  else if b == "low" then some (if "Low" ∈ cols then "Low" else "price")
  else if b == "volume" then some (if "Volume" ∈ cols then "Volume" else "price")
  else if b == "close" || b == "close/last" then
    some (if "Close" ∈ cols then "Close" else "price")
  else none

/-- Full resolution of the lag branch: exact match first (`is None`
check), then the alias table. -/
def lagColMatch (cols : List String) (baseCol : String) : Option String :=
  (findColMatch cols baseCol).orElse (fun _ => lagAlias cols baseCol)

/-- Full resolution of the current-value branch. -/
def currentColMatch (cols : List String) (nm : String) : Option String :=
  (findColMatch cols nm).orElse (fun _ => currentAlias cols nm)

/-- Python truthiness of `col_match`: a non-`None`, non-empty string. -/
def optTruthy : Option String → Bool
  | none => false
  | some s => s != ""

/-- Lines 127–135: value of a lag feature once base column and lag
number are extracted. -/
def resolveLagFeature (df : DF) (baseCol : String) (lagNum : Int) : Option ℚ :=
  let colMatch := lagColMatch df.columns baseCol
  if optTruthy colMatch ∧ (df.nrows : Int) > lagNum then
    (do
      let col ← colMatch
      let vals ← df.getCol col
      let v ← pyIloc vals (-(lagNum + 1))
      toFloatQ v)
  else if optTruthy colMatch then
    (do
      let col ← colMatch
      let v ← df.lastOf col
      toFloatQ v)
  else some 0

/-- Lines 157–160: value of a current-value feature. -/
def resolveCurrentFeature (df : DF) (nm : String) : Option ℚ :=
  let colMatch := currentColMatch df.columns nm
  if optTruthy colMatch then
    (do
      let col ← colMatch
      let v ← df.lastOf col
      toFloatQ v)
  else some 0

/-- Lines 99–160: one iteration of the per-feature loop.  A `none`
stands for an exception (unparsable lag suffix, missing aliased column,
uncastable cell) that aborts the whole vector. -/
def resolveFeature (df : DF) (featName : String) : Option ℚ :=
  let n := pyStrip featName
  let parts := pySplit n "_lag"
  if parts.length > 1 then
    match parsePyInt (parts.getD 1 "") with
    | none => none
    | some lagNum => resolveLagFeature df (parts.getD 0 "") lagNum
  else resolveCurrentFeature df n

/-- The model metadata (`{SYMBOL}_metadata.json`), as the fields the
predictor reads: `features`, `lags` (default 0), `model_type`,
`version` (default `"unknown"`) and the `metrics` mapping. -/
structure Metadata where
  features : List String
  lags : ℕ
  model_type : Option String
  version : Option String
  metrics : List (String × ℚ)

/-- The trained regressor, behind its one entry point.  `predictFn`
returns `none` when the underlying `model.predict` raises. -/
structure Model where
  predictFn : List ℚ → Option ℚ

/-- Lines 64–166, `prepare_features` on an already-built DataFrame
(the `isinstance(..., list)` conversion is `buildDF` below): strip the
column labels, refuse histories shorter than `lags + 1`, then resolve
each required feature in order, aborting on the first exception. -/
def mapOpt {α β : Type} (f : α → Option β) : List α → Option (List β)
  | [] => some []
  | a :: l => (f a).bind fun b => (mapOpt f l).map fun bs => b :: bs

def prepare_featuresDF (df0 : DF) (m : Metadata) : Option (List ℚ) :=
  let df := stripCols df0
  if df.nrows < m.lags + 1 then none
  else mapOpt (resolveFeature df) m.features

/-- `prepare_features` on a JSON history list. -/
def prepare_features (history : List Record) (m : Metadata) : Option (List ℚ) :=
  prepare_featuresDF (buildDF history) m

/-- What `load_model(symbol)` finds on disk for one symbol:
whether `{symbol}_model.pkl` and `{symbol}_metadata.json` exist, and the
loaded pair when both deserialise cleanly (`none` = the `try` block of
lines 40–51 raised). -/
structure ModelStore where
  modelFile : Bool
  metadataFile : Bool
  loadOk : Option (Model × Metadata)

/-- Lines 16–51, `load_model`. -/
def load_model (fs : String → ModelStore) (symbol : String) :
    Option (Model × Metadata) :=
  let s := fs symbol
  if !s.modelFile then none
  else if !s.metadataFile then none
  else s.loadOk

/-- Lines 215–220: the confidence heuristic.  Note the Python
truthiness test `and rmse`: a present but zero RMSE falls back to the
0.5 default. -/
def computeConfidence (currentPrice : ℚ) (rmse : Option ℚ) : ℚ :=
  match rmse with
  | some r =>
      if currentPrice > 0 ∧ r ≠ 0 then max (3/10) (1 - min (r / currentPrice) 1)
      else 1/2
  | none => 1/2

/-- Lines 223–228: absolute predicted change. -/
def changeOf (currentPrice predicted : ℚ) : ℚ :=
  if currentPrice > 0 then predicted - currentPrice else 0

/-- Lines 223–228: percentage predicted change. -/
def changePctOf (currentPrice predicted : ℚ) : ℚ :=
  if currentPrice > 0 then (predicted - currentPrice) / currentPrice * 100 else 0

/-- Lines 231–236: the three-way trend label. -/
def classifyTrend (changePct : ℚ) : String :=
  if changePct > 2 then "Bullish"
  else if changePct < -2 then "Bearish"
  else "Neutral"

/-- The result dictionary of `predict_price`, one constructor per
terminal branch.  Error messages keep the fixed prefix of the source
(`str(e)` suffixes of caught exceptions are not modelled). -/
inductive POutcome where
  | noModel (error : String)
  | insufficientData (error : String) (modelType : Option String) (requiredLags : ℕ)
  | predictionFailed (error : String) (modelType : Option String)
  | success (predictedPrice currentPrice change changePct : ℚ)
      (trend : String) (confidence : ℚ) (modelType : Option String)
      (version : String) (metrics : List (String × ℚ))
deriving DecidableEq

/-- The `available` field of the result dictionary. -/
def POutcome.available : POutcome → Bool
  | .noModel _ => false
  | _ => true

/-- Lines 210–213: raw current price of the latest record
(`.get('price', .get('Close', 0))`). -/
def currentPriceVal (history : List Record) : Option Value :=
  (history.getLast?).map fun last =>
    ((lookupKV last "price").orElse (fun _ => lookupKV last "Close")).getD (.num 0)

/-- Lines 168–257, `predict_price` on a JSON history list.  The
`none`s of the inner `try` (model rejection, non-numeric current price,
empty list reaching `.iloc`) all land in `predictionFailed`. -/
def predict_price (fs : String → ModelStore) (symbol : String)
    (history : List Record) : POutcome :=
  match load_model fs symbol with
  | none => .noModel ("No trained model found for symbol " ++ symbol)
  | some (model, metadata) =>
    match prepare_features history metadata with
    | none =>
        .insufficientData "Insufficient historical data to prepare features"
          metadata.model_type metadata.lags
    | some fv =>
      match model.predictFn fv with
      | none => .predictionFailed "Prediction failed" metadata.model_type
      | some predicted =>
        match (currentPriceVal history).bind toFloatQ with
        | none => .predictionFailed "Prediction failed" metadata.model_type
        | some current =>
          let rmse := lookupKV metadata.metrics "RMSE"
          .success predicted current (changeOf current predicted)
            (changePctOf current predicted)
            (classifyTrend (changePctOf current predicted))
            (computeConfidence current rmse)
            metadata.model_type (metadata.version.getD "unknown")
            metadata.metrics

/-! ## Helper lemmas -/

theorem mapOpt_length {α β : Type} {f : α → Option β} :
    ∀ {l : List α} {v : List β}, mapOpt f l = some v → v.length = l.length := by
  intro l
  induction l with
  | nil => intro v h; simp [mapOpt] at h; simp [← h]
  | cons a l ih =>
    intro v h
    simp only [mapOpt, Option.bind_eq_some, Option.map_eq_some'] at h
    obtain ⟨b, _, bs, hbs, rfl⟩ := h
    simp [ih hbs]

theorem mapOpt_get? {α β : Type} {f : α → Option β} :
    ∀ {l : List α} {v : List β}, mapOpt f l = some v →
      ∀ i : ℕ, v.get? i = (l.get? i).bind f := by
  intro l
  induction l with
  | nil => intro v h i; simp [mapOpt] at h; subst h; simp
  | cons a l ih =>
    intro v h i
    simp only [mapOpt, Option.bind_eq_some, Option.map_eq_some'] at h
    obtain ⟨b, hb, bs, hbs, rfl⟩ := h
    cases i with
    | zero => simp [hb]
    | succ j => simpa using ih hbs j

theorem mapOpt_ne_none {α β : Type} {f : α → Option β} :
    ∀ {l : List α}, (∀ a ∈ l, f a ≠ none) → mapOpt f l ≠ none := by
  intro l
  induction l with
  | nil => intro _; simp [mapOpt]
  | cons a l ih =>
    intro h
    have ha := h a (by simp)
    have hl := ih (fun x hx => h x (by simp [hx]))
    obtain ⟨b, hb⟩ := Option.ne_none_iff_exists'.mp ha
    obtain ⟨bs, hbs⟩ := Option.ne_none_iff_exists'.mp hl
    simp [mapOpt, hb, hbs]

theorem setCol_nrows (df : DF) (n : String) (v : List Value) :
    (df.setCol n v).nrows = df.nrows := by
  simp only [DF.setCol]
  split <;> rfl

theorem buildDF_nrows (history : List Record) :
    (buildDF history).nrows = history.length := by
  simp only [buildDF]
  split
  · split <;> split <;> split <;> split <;> simp [setCol_nrows]
  · rfl

theorem stripCols_nrows (df : DF) : (stripCols df).nrows = df.nrows := rfl

theorem pyIloc_neg (vals : List Value) (N : ℕ) (h : N < vals.length) :
    pyIloc vals (-(N + 1)) = vals.get? (vals.length - 1 - N) := by
  simp only [pyIloc]
  rw [if_neg (by omega), if_pos (by omega)]
  congr 1
  omega

/-! ## Claims about the confidence and trend estimator -/

/-- C4, counterexample.  The claim says a present root-mean-squared-error
entry always selects the formula branch, but the source tests `and rmse`
(Python truthiness): with `current_price = 100` and a present entry
`RMSE = 0`, `computeConfidence` returns the default `1/2`, while the
claimed formula gives `max(0.3, 1 - min(0/100, 1)) = 1`. -/
theorem C4_confidence_counterexample :
    lookupKV [("RMSE", (0 : ℚ))] "RMSE" = some 0 ∧
    computeConfidence 100 (lookupKV [("RMSE", (0 : ℚ))] "RMSE") = 1/2 ∧
    max (3/10 : ℚ) (1 - min ((0 : ℚ) / 100) 1) = 1 ∧ (1/2 : ℚ) ≠ 1 := by
  refine ⟨rfl, ?_, by norm_num, by norm_num⟩
  norm_num [computeConfidence, lookupKV, List.find?]

/-- C4, amended.  If the current price is greater than 0 and the metrics
carry a *nonzero* RMSE entry, the confidence is
`max(0.3, 1 - min(rmse/current, 1))`; in every other case (no entry, a
zero entry, or a non-positive current price) it is the fixed default
`0.5`.  In particular `current = 100`, `rmse = 2` gives `0.98` (see the
witness). -/
theorem C4_confidence_formula (current r : ℚ) (rmse : Option ℚ) :
    (current > 0 → rmse = some r → r ≠ 0 →
      computeConfidence current rmse = max (3/10) (1 - min (r / current) 1)) ∧
    (¬ current > 0 ∨ rmse = none ∨ rmse = some 0 →
      computeConfidence current rmse = 1/2) := by
  constructor
  · intro hc hr hne
    subst hr
    simp [computeConfidence, hc, hne]
  · rintro (hc | rfl | rfl)
    · cases rmse with
      | none => rfl
      | some r' => simp [computeConfidence, hc]
    · rfl
    · simp [computeConfidence]

/-- C4, witness: `current = 100`, metrics entry `RMSE = 2` gives
confidence `0.98`. -/
theorem C4_confidence_formula_witness :
    computeConfidence 100 (some 2) = 49/50 :=
  ((C4_confidence_formula 100 2 (some 2)).1 (by norm_num) rfl
    (by norm_num)).trans (by norm_num)

/-- C5.  The percentage change is `(predicted - current)/current * 100`
when `current > 0` and `0` otherwise, and the trend thresholds are
strict: above 2 Bullish, below −2 Bearish, everything in `[-2, 2]` —
both boundaries included — Neutral. -/
theorem C5_trend_thresholds (current predicted cp : ℚ) :
    (current > 0 →
      changePctOf current predicted = (predicted - current) / current * 100) ∧
    (¬ current > 0 → changePctOf current predicted = 0) ∧
    (classifyTrend cp = "Bullish" ↔ cp > 2) ∧
    (classifyTrend cp = "Bearish" ↔ cp < -2) ∧
    (classifyTrend cp = "Neutral" ↔ -2 ≤ cp ∧ cp ≤ 2) ∧
    classifyTrend (2 : ℚ) = "Neutral" ∧ classifyTrend (-2 : ℚ) = "Neutral" := by
  refine ⟨fun h => by simp [changePctOf, h], fun h => by simp [changePctOf, h],
    ?_, ?_, ?_, by norm_num [classifyTrend], by norm_num [classifyTrend]⟩
  · unfold classifyTrend
    split_ifs with h1 h2
    · exact iff_of_true rfl h1
    · exact iff_of_false (by decide) (by linarith)
    · exact iff_of_false (by decide) h1
  · unfold classifyTrend
    split_ifs with h1 h2
    · exact iff_of_false (by decide) (by linarith)
    · exact iff_of_true rfl h2
    · exact iff_of_false (by decide) h2
  · unfold classifyTrend
    split_ifs with h1 h2
    · exact iff_of_false (by decide) (by push_neg; intro _; linarith)
    · exact iff_of_false (by decide) (by push_neg; intro h; linarith)
    · exact iff_of_true rfl ⟨by linarith, by linarith⟩

/-- C5, witness: `current = 100`, `predicted = 103` gives a 3 percent
change and a Bullish trend; the exact boundary 2 stays Neutral. -/
theorem C5_trend_thresholds_witness :
    changePctOf 100 103 = 3 ∧ classifyTrend (3 : ℚ) = "Bullish" ∧
    classifyTrend (2 : ℚ) = "Neutral" :=
  ⟨((C5_trend_thresholds 100 103 3).1 (by norm_num)).trans (by norm_num),
   (C5_trend_thresholds 100 103 3).2.2.1.mpr (by norm_num),
   (C5_trend_thresholds 100 103 2).2.2.2.2.2.1⟩

/-- C6, counterexample.  As stated the claim fails twice on the code:
with `current = 100`, the RMSE pair `r1 = 0 ≤ r2 = 1` gives confidences
`0.5 < 0.99` (the zero entry falls through to the default, so confidence
is not non-increasing in rmse), and the input `rmse = -5` gives
confidence `21/20 > 1`, outside the claimed `[0.3, 1.0]`. -/
theorem C6_confidence_monotone_counterexample :
    computeConfidence 100 (some 0) = 1/2 ∧
    computeConfidence 100 (some 1) = 99/100 ∧
    ¬ computeConfidence 100 (some 1) ≤ computeConfidence 100 (some 0) ∧
    computeConfidence 100 (some (-5)) = 21/20 ∧
    ¬ computeConfidence 100 (some (-5)) ≤ 1 := by
  norm_num [computeConfidence]

/-- C6, amended.  For a fixed positive current price, the confidence is
monotonically non-increasing on *positive* RMSE values, and it lies in
`[0.3, 1.0]` whenever the RMSE entry is absent or non-negative. -/
theorem C6_confidence_monotone (c r1 r2 : ℚ) (rmse : Option ℚ) :
    (0 < c → 0 < r1 → r1 ≤ r2 →
      computeConfidence c (some r2) ≤ computeConfidence c (some r1)) ∧
    ((rmse = none ∨ ∃ r, rmse = some r ∧ 0 ≤ r) →
      3/10 ≤ computeConfidence c rmse ∧ computeConfidence c rmse ≤ 1) := by
  constructor
  · intro hc h1 h12
    have h2 : (0 : ℚ) < r2 := lt_of_lt_of_le h1 h12
    simp only [computeConfidence, hc, true_and, if_pos (ne_of_gt h1),
      if_pos (ne_of_gt h2)]
    gcongr
  · rintro (rfl | ⟨r, rfl, hr⟩)
    · norm_num [computeConfidence]
    · simp only [computeConfidence]
      split_ifs with h
      · obtain ⟨hc, hne⟩ := h
        have hrpos : (0 : ℚ) < r := lt_of_le_of_ne hr (Ne.symm hne)
        constructor
        · exact le_max_left _ _
        · apply max_le (by norm_num)
          have : (0 : ℚ) ≤ min (r / c) 1 :=
            le_min (div_nonneg hr hc.le) zero_le_one
          linarith
      · norm_num

/-- C6, witness: `current = 100`, `r1 = 1 ≤ r2 = 2` gives non-increasing
confidences, and the `r2` confidence lies in `[0.3, 1]`. -/
theorem C6_confidence_monotone_witness :
    computeConfidence 100 (some 2) ≤ computeConfidence 100 (some 1) ∧
    3/10 ≤ computeConfidence 100 (some 2) ∧ computeConfidence 100 (some 2) ≤ 1 :=
  ⟨(C6_confidence_monotone 100 1 2 none).1 (by norm_num) (by norm_num) (by norm_num),
   (C6_confidence_monotone 100 1 2 (some 2)).2 (Or.inr ⟨2, rfl, by norm_num⟩)⟩

/-! ## Claims about the feature resolver -/

theorem not_mem_of_findColMatch_none {cols : List String} {base : String}
    (h : findColMatch cols base = none) (c : String)
    (hc : pyLower (pyStrip c) = pyLower base) : c ∉ cols := by
  intro hmem
  have := List.find?_eq_none.mp h c hmem
  simp [hc] at this

/-- A history frame with `Date` and `Close` columns only. -/
def dfDateClose : DF := ⟨[("Date", [.other, .other]), ("Close", [.num 1, .num 2])], 2⟩

/-- C1, counterexample.  Over columns `Date, Close`, the base name
`Open` matches no column; the claim says both branches then alias
`open → Open (else price)`, so the lag branch should resolve the column
`price` and not default.  The code's lag branch instead leaves the
column unresolved (only the current-value branch yields `price`), and
the lag feature `Open_lag1` defaults to `0.0` even though an alias
applies to its base name. -/
theorem C1_alias_counterexample :
    findColMatch dfDateClose.columns "Open" = none ∧
    lagColMatch dfDateClose.columns "Open" = none ∧
    currentColMatch dfDateClose.columns "Open" = some "price" ∧
    resolveFeature dfDateClose "Open_lag1" = some 0 ∧
    resolveFeature dfDateClose "Open" = none := by
  refine ⟨by decide, by decide, by decide, by decide, by decide⟩

/-- C1, amended.  When the (trimmed, lowercased) base name matches no
available column: in the current-value branch the alias table is as
claimed, and since on this path the canonical capitalized column cannot
be present either (it would have matched), `open`, `high`, `low`,
`volume` and `close` all resolve to `price`, while `close/last`
resolves to `Close` when a `Close` column exists and to `price`
otherwise.  In the lag branch only `close` (→ `price`) and `close/last`
(→ `Close`, else `price`) have aliases; `open`, `high`, `low` and
`volume` obtain no alias there, so those lag features default to `0.0`
exactly like names outside the table. -/
theorem C1_alias_table (cols : List String) (base : String)
    (h : findColMatch cols base = none) :
    (pyLower base = "open" →
      lagAlias cols base = none ∧ currentAlias cols base = some "price") ∧
    (pyLower base = "high" →
      lagAlias cols base = none ∧ currentAlias cols base = some "price") ∧
    (pyLower base = "low" →
      lagAlias cols base = none ∧ currentAlias cols base = some "price") ∧
    (pyLower base = "volume" →
      lagAlias cols base = none ∧ currentAlias cols base = some "price") ∧
    (pyLower base = "close" →
      lagAlias cols base = some "price" ∧ currentAlias cols base = some "price") ∧
    (pyLower base = "close/last" →
      lagAlias cols base = some (if "Close" ∈ cols then "Close" else "price") ∧
      currentAlias cols base = some (if "Close" ∈ cols then "Close" else "price")) ∧
    (pyLower base ∉ (["open", "high", "low", "volume", "close", "close/last"] :
        List String) →
      lagAlias cols base = none ∧ currentAlias cols base = none) := by
  refine ⟨?_, ?_, ?_, ?_, ?_, ?_, ?_⟩ <;> intro hb
  · have : "Open" ∉ cols := not_mem_of_findColMatch_none h "Open" (by rw [hb]; rfl)
    simp [lagAlias, currentAlias, hb, this]
  · have : "High" ∉ cols := not_mem_of_findColMatch_none h "High" (by rw [hb]; rfl)
    simp [lagAlias, currentAlias, hb, this]
  · have : "Low" ∉ cols := not_mem_of_findColMatch_none h "Low" (by rw [hb]; rfl)
    simp [lagAlias, currentAlias, hb, this]
  · have : "Volume" ∉ cols := not_mem_of_findColMatch_none h "Volume" (by rw [hb]; rfl)
    simp [lagAlias, currentAlias, hb, this]
  · have : "Close" ∉ cols := not_mem_of_findColMatch_none h "Close" (by rw [hb]; rfl)
    simp [lagAlias, currentAlias, hb, this]
  · simp [lagAlias, currentAlias, hb]
  · simp only [List.mem_cons, List.not_mem_nil, or_false, not_or] at hb
    obtain ⟨h1, h2, h3, h4, h5, h6⟩ := hb
    simp [lagAlias, currentAlias, h1, h2, h3, h4, h5, h6]

/-- C1, witness for the amended table: over columns `Date, Close` the
base `Open` matches nothing, gets no lag alias, and aliases to `price`
in the current-value branch. -/
theorem C1_alias_table_witness :
    lagAlias dfDateClose.columns "Open" = none ∧
    currentAlias dfDateClose.columns "Open" = some "price" :=
  (C1_alias_table dfDateClose.columns "Open" (by decide)).1 rfl

/-- C2.  For a lag feature with parsed lag `N` and a (truthily) resolved
column holding `vals`: with more than `N` records the value is
`vals[length - 1 - N]` (N steps back from the latest record), otherwise
the latest value of that column, in both cases fed through the float
cast. -/
theorem C2_lag_lookup (df : DF) (name base s col : String) (rest : List String)
    (N : ℕ) (vals : List Value)
    (_hnd : df.columns.Nodup)
    (hsplit : pySplit (pyStrip name) "_lag" = base :: s :: rest)
    (hparse : parsePyInt s = some (N : ℤ))
    (hcol : lagColMatch df.columns base = some col) (hne : col ≠ "")
    (hvals : df.getCol col = some vals) (hlen : vals.length = df.nrows) :
    (N < df.nrows →
      resolveFeature df name = (vals.get? (df.nrows - 1 - N)).bind toFloatQ) ∧
    (df.nrows ≤ N → resolveFeature df name = vals.getLast?.bind toFloatQ) := by
  have htruthy : optTruthy (some col) = true := by
    simp [optTruthy, bne_iff_ne, hne]
  have hres : resolveFeature df name = resolveLagFeature df base (N : ℤ) := by
    simp [resolveFeature, hsplit, hparse]
  constructor
  · intro hN
    rw [hres]
    simp only [resolveLagFeature, hcol]
    rw [if_pos ⟨by simp [htruthy], by exact_mod_cast hN⟩]
    simp only [Option.bind_eq_bind, Option.some_bind, hvals]
    rw [pyIloc_neg vals N (by omega), hlen]
  · intro hN
    rw [hres]
    simp only [resolveLagFeature, hcol]
    rw [if_neg (by push_neg; intro _; exact_mod_cast hN)]
    rw [if_pos (by simp [htruthy])]
    simp only [Option.bind_eq_bind, Option.some_bind, DF.lastOf, hvals]

/-- A 5-record Close history `[10, 11, 12, 13, 14]`. -/
def dfClose5 : DF :=
  ⟨[("Close", [.num 10, .num 11, .num 12, .num 13, .num 14])], 5⟩

/-- C2, witness: `Close_lag2` over the 5-record Close history
`[10,11,12,13,14]` resolves to `12`. -/
theorem C2_lag_lookup_witness : resolveFeature dfClose5 "Close_lag2" = some 12 :=
  ((C2_lag_lookup dfClose5 "Close_lag2" "Close" "2" "Close" [] 2
      [.num 10, .num 11, .num 12, .num 13, .num 14]
      (by decide) (by decide) (by decide) (by decide) (by decide) (by decide)
      (by decide)).1 (by decide)).trans (by decide)

/-- C7.  A feature name whose (lowercased, trimmed) base matches no
column and gains no alias resolves to `0.0` rather than failing, in the
current-value branch and — once the lag suffix has parsed — in the lag
branch; and a run of the resolver over a sufficiently long history never
fails on account of such names: it fails only if some individual feature
resolution fails. -/
theorem C7_zero_fill :
    (∀ (df : DF) (name : String),
      (pySplit (pyStrip name) "_lag").length ≤ 1 →
      findColMatch df.columns (pyStrip name) = none →
      currentAlias df.columns (pyStrip name) = none →
      resolveFeature df name = some 0) ∧
    (∀ (df : DF) (name base s : String) (rest : List String) (k : ℤ),
      pySplit (pyStrip name) "_lag" = base :: s :: rest →
      parsePyInt s = some k →
      findColMatch df.columns base = none →
      lagAlias df.columns base = none →
      resolveFeature df name = some 0) ∧
    (∀ (df : DF) (m : Metadata),
      ¬ (stripCols df).nrows < m.lags + 1 →
      (∀ f ∈ m.features, resolveFeature (stripCols df) f ≠ none) →
      prepare_featuresDF df m ≠ none) := by
  refine ⟨?_, ?_, ?_⟩
  · intro df name hlen hmatch halias
    have : ¬ (pySplit (pyStrip name) "_lag").length > 1 := by omega
    simp [resolveFeature, this, resolveCurrentFeature, currentColMatch,
      hmatch, halias, Option.orElse, optTruthy]
  · intro df name base s rest k hsplit hparse hmatch halias
    simp [resolveFeature, hsplit, hparse, resolveLagFeature, lagColMatch,
      hmatch, halias, Option.orElse, optTruthy]
  · intro df m hlong hall
    simp only [prepare_featuresDF]
    rw [if_neg hlong]
    exact mapOpt_ne_none hall

/-- C7, witness: over columns `Date, Close`, the plain name `Foo` and
the lag name `Foo_lag1` both resolve to `0.0`. -/
theorem C7_zero_fill_witness :
    resolveFeature dfDateClose "Foo" = some 0 ∧
    resolveFeature dfDateClose "Foo_lag1" = some 0 :=
  ⟨C7_zero_fill.1 dfDateClose "Foo" (by decide) (by decide) (by decide),
   C7_zero_fill.2.1 dfDateClose "Foo_lag1" "Foo" "1" [] 1 (by decide) (by decide)
     (by decide) (by decide)⟩

/-- C9.  A successful resolution returns one float per required feature:
the vector has length `len(features)` and its `i`-th entry is exactly
the value resolved for `features[i]`. -/
theorem C9_vector_shape (df : DF) (m : Metadata) (v : List ℚ)
    (h : prepare_featuresDF df m = some v) :
    v.length = m.features.length ∧
    ∀ (i : ℕ) (name : String), m.features.get? i = some name →
      v.get? i = resolveFeature (stripCols df) name := by
  have hmap : mapOpt (resolveFeature (stripCols df)) m.features = some v := by
    simp only [prepare_featuresDF] at h
    split at h
    · exact absurd h (by simp)
    · exact h
  refine ⟨mapOpt_length hmap, fun i name hn => ?_⟩
  rw [mapOpt_get? hmap i, hn]
  rfl

/-- Metadata asking for a lagged close, the current close, and an
unresolvable name. -/
def mdThree : Metadata := ⟨["Close_lag1", "Close", "Foo"], 1, none, none, []⟩

/-- C9, witness: over a 2-record Close history, the three requested
features resolve to a vector of length 3. -/
theorem C9_vector_shape_witness :
    prepare_featuresDF ⟨[("Close", [.num 10, .num 11])], 2⟩ mdThree =
      some [10, 11, 0] ∧
    ([10, 11, 0] : List ℚ).length = mdThree.features.length :=
  ⟨by decide,
   (C9_vector_shape ⟨[("Close", [.num 10, .num 11])], 2⟩ mdThree [10, 11, 0]
     (by decide)).1⟩

/-! ## Claims about the pipeline orchestrator -/

/-- C3.  Whenever the model loads but the history has fewer than
`lags + 1` records, `prepare_features` returns the insufficient-data
sentinel (no partial vector), and `predict_price` surfaces it as an
error result with `available = true` and `required_lags` equal to the
descriptor's `lags`. -/
theorem C3_short_history (fs : String → ModelStore) (symbol : String)
    (history : List Record) (model : Model) (metadata : Metadata)
    (hload : load_model fs symbol = some (model, metadata))
    (hshort : history.length < metadata.lags + 1) :
    prepare_features history metadata = none ∧
    predict_price fs symbol history =
      .insufficientData "Insufficient historical data to prepare features"
        metadata.model_type metadata.lags := by
  have hprep : prepare_features history metadata = none := by
    have hn : (stripCols (buildDF history)).nrows < metadata.lags + 1 := by
      rw [stripCols_nrows, buildDF_nrows]; exact hshort
    simp [prepare_features, prepare_featuresDF, hn]
  exact ⟨hprep, by simp [predict_price, hload, hprep]⟩

/-- A store holding, for every symbol, a model that sums its features
and a descriptor requiring 5 lags. -/
def mdLags5 : Metadata :=
  ⟨["Close_lag1", "Close"], 5, some "RandomForest", some "1.0", [("RMSE", 2)]⟩

def sumModel : Model := ⟨fun v => some (v.foldl (· + ·) 0)⟩

def fsLags5 : String → ModelStore := fun _ => ⟨true, true, some (sumModel, mdLags5)⟩

def hist3 : List Record :=
  [[("price", .num 5)], [("price", .num 6)], [("price", .num 7)]]

/-- C3, witness: a model requiring `lags = 5` given only 3 records
yields the insufficient-data error with `required_lags = 5`. -/
theorem C3_short_history_witness :
    prepare_features hist3 mdLags5 = none ∧
    predict_price fsLags5 "AAPL" hist3 =
      .insufficientData "Insufficient historical data to prepare features"
        (some "RandomForest") 5 :=
  C3_short_history fsLags5 "AAPL" hist3 sumModel mdLags5 rfl (by decide)

/-- C8.  A symbol whose model artifact is missing, or whose metadata
file is missing, or whose artifact pair fails to load, makes
`load_model` return nothing and `predict_price` return the
no-model error with `available = false` — a constructor carrying no
prediction fields at all. -/
theorem C8_missing_model (fs : String → ModelStore) (symbol : String)
    (history : List Record)
    (h : (fs symbol).modelFile = false ∨ (fs symbol).metadataFile = false ∨
      (fs symbol).loadOk = none) :
    load_model fs symbol = none ∧
    predict_price fs symbol history =
      .noModel ("No trained model found for symbol " ++ symbol) ∧
    (predict_price fs symbol history).available = false := by
  have hl : load_model fs symbol = none := by
    rcases h with h | h | h <;> simp [load_model, h]
  refine ⟨hl, by simp [predict_price, hl], ?_⟩
  simp [predict_price, hl, POutcome.available]

/-- C8, witness: a symbol with no stored model artifact. -/
theorem C8_missing_model_witness :
    predict_price (fun _ => ⟨false, true, none⟩) "TSLA" hist3 =
      .noModel "No trained model found for symbol TSLA" ∧
    (predict_price (fun _ => ⟨false, true, none⟩) "TSLA" hist3).available = false :=
  (C8_missing_model (fun _ => ⟨false, true, none⟩) "TSLA" hist3 (Or.inl rfl)).2

/-- Descriptor with a malformed lag suffix in its feature list. -/
def mdMalformedLag : Metadata := ⟨["Close_lagX"], 0, some "RF", none, []⟩

/-- Descriptor and frame whose only feature value cannot be cast. -/
def mdCastFail : Metadata := ⟨["Close"], 0, some "RF", none, []⟩

/-- Descriptor whose feature aliases to a `price` column that the
frame does not have. -/
def mdAliasPrice : Metadata := ⟨["High"], 0, some "RF", none, []⟩

def fsMalformed : String → ModelStore :=
  fun _ => ⟨true, true, some (sumModel, mdMalformedLag)⟩

def histClose2 : List Record := [[("Close", .num 1)], [("Close", .num 2)]]

/-- C10.  Every failure inside `prepare_features` — not only a short
history but also a lag suffix that does not parse (`Close_lagX`), a
value `float()` rejects, or an alias resolving to an absent `price`
column — returns the same `none` sentinel, which `predict_price` maps
to the one insufficient-data error result (message
`"Insufficient historical data to prepare features"`, `available = true`,
`required_lags = lags`); at the public interface a resolution failure is
therefore indistinguishable from a short history, as the final concrete
equality shows. -/
theorem C10_failures_collapse :
    (∀ (fs : String → ModelStore) (symbol : String) (history : List Record)
      (model : Model) (metadata : Metadata),
      load_model fs symbol = some (model, metadata) →
      prepare_features history metadata = none →
      predict_price fs symbol history =
        .insufficientData "Insufficient historical data to prepare features"
          metadata.model_type metadata.lags) ∧
    prepare_featuresDF ⟨[("Close", [.num 1, .num 2])], 2⟩ mdMalformedLag = none ∧
    prepare_featuresDF ⟨[("Close", [.other])], 1⟩ mdCastFail = none ∧
    prepare_featuresDF ⟨[("Close", [.num 5])], 1⟩ mdAliasPrice = none ∧
    predict_price fsMalformed "S" histClose2 = predict_price fsMalformed "S" [] := by
  refine ⟨?_, by decide, by decide, by decide, by decide⟩
  intro fs symbol history model metadata hload hprep
  simp [predict_price, hload, hprep]

/-- C10, witness: applying the collapse to the malformed-lag store:
the public result for a 2-record history carrying `Close_lagX` equals
the insufficient-data error result. -/
theorem C10_failures_collapse_witness :
    predict_price fsMalformed "S" histClose2 =
      .insufficientData "Insufficient historical data to prepare features"
        (some "RF") 0 :=
  C10_failures_collapse.1 fsMalformed "S" histClose2 sumModel mdMalformedLag rfl
    (by decide)

end MLPredict
